import Mathlib

/-!
Shallow embedding of `simple_scraper.py` (class `WebScrapper`, `parse_args`, and the
`__main__` entry point). Network calls, BeautifulSoup parsing and file-open failures are
abstracted as an environment oracle; the object state (`self.cached`, `self.export_type`,
`self.page`), the on-disk filesystem, network-call counters and the number of error log
lines are threaded explicitly. Python exceptions that escape a function are modelled with
`Except`; functions that catch every exception internally are total.
-/

namespace SimpleScraper

/-- Association-list lookup, modelling key lookup in a Python dict and file lookup on disk. -/
def alistGet {κ α : Type} [DecidableEq κ] : List (κ × α) → κ → Option α
  | [], _ => none
  | e :: rest, k => if e.1 = k then some e.2 else alistGet rest k

/-- Association-list update with Python dict semantics: replace the binding in place when
the key is present, otherwise append the new binding at the end. -/
def alistSet {κ α : Type} [DecidableEq κ] : List (κ × α) → κ → α → List (κ × α)
  | [], k, v => [(k, v)]
  | e :: rest, k, v => if e.1 = k then (k, v) :: rest else e :: alistSet rest k v

/-- Contents of a file on disk, remembering whether it was written in text or binary mode. -/
inductive FileData : Type
  | text (s : String)
  | binary (s : String)
deriving DecidableEq

/-- The raw character content of a file, however it was written. -/
def FileData.data : FileData → String
  | .text s => s
  | .binary s => s

/-- The on-disk filesystem: file name to file contents. -/
abbrev FileSystem := List (String × FileData)

/-- An HTTP response as exposed by the requests library: status code, raw body bytes
(`content`, bytes modelled as a string of characters) and decoded text (`text`). -/
structure HttpResponse where
  status : Nat
  content : String
  text : String
deriving DecidableEq

/-- Result of one network call: a response object, or a transport-level exception raised
by the requests library. -/
inductive NetResult : Type
  | resp (r : HttpResponse)
  | exn
deriving DecidableEq

/-- One `input` element of the export form, with its `name` and `value` attributes
(`none` when the attribute is absent, as `Tag.get` returns `None`). -/
structure InputElem where
  name : Option String
  value : Option String
deriving DecidableEq

/-- Environment of one run: what the GET returns, what the POST returns, the
BeautifulSoup oracle (`parse p` is the list of `input` elements of the form with id
`_disspact_WAR_disspactportlet_exportForm` in page `p`, or `none` when that form is
absent so that `export_form.find_all` raises AttributeError), and whether opening the
output file raises IOError. -/
structure Env where
  getResult : NetResult
  postResult : NetResult
  parse : String → Option (List InputElem)
  ioError : Bool

/-- The mutable state of a run: the `WebScrapper` object fields (`cached`,
`export_type`, `page`), the filesystem, the number of GET and POST calls issued so far,
and the number of error-level log lines emitted so far. -/
structure ScraperState where
  cached : Bool
  exportType : String
  page : Option String
  fs : FileSystem
  getCount : Nat
  postCount : Nat
  errors : Nat
deriving DecidableEq

/-- `SUPPORTED_FILE_TYPES = ("csv", "xml", "xls")`. -/
def SUPPORTED_FILE_TYPES : List String := ["csv", "xml", "xls"]

/-- The name of the export-type input field. -/
def exportTypeKey : String := "_disspact_WAR_disspactportlet_exportType"

/-- Python `str.lower` restricted to ASCII, which is all the program compares. -/
def pyLower (s : String) : String :=
  String.mk (s.data.map (fun c => if 'A' ≤ c ∧ c ≤ 'Z' then Char.ofNat (c.toNat + 32) else c))

/-- The characters Python `bytes.strip()` removes. -/
def isPyWs (c : Char) : Bool :=
  c.toNat == 32 || c.toNat == 9 || c.toNat == 10 || c.toNat == 13 || c.toNat == 11 || c.toNat == 12

/-- Python `bytes.strip()`: drop leading and trailing ASCII whitespace. -/
def pyStrip (s : String) : String :=
  String.mk (((s.data.dropWhile isPyWs).reverse.dropWhile isPyWs).reverse)

/-- Python truthiness of `self.page` (`None` and the empty byte string are falsy). -/
def truthy : Option String → Bool
  | none => false
  | some s => !s.isEmpty

/-- `WebScrapper.get_page`: issue one `session.get`; on status 200 store the body in
`self.page`, otherwise log an error and leave `self.page` untouched. `requests.HTTPError`
and every other exception are caught and logged, so the method never raises. -/
def get_page (env : Env) (s : ScraperState) : ScraperState :=
  let s1 := { s with getCount := s.getCount + 1 }
  match env.getResult with
  | NetResult.resp r =>
      if r.status = 200 then { s1 with page := some r.content }
      else { s1 with errors := s1.errors + 1 }
  | NetResult.exn => { s1 with errors := s1.errors + 1 }

/-- `WebScrapper.download`: if `main.html` exists, read it and store its stripped
contents in `self.page`; otherwise open `main.html` in mode `wb` (which creates it
empty), call `get_page`, and write `self.page` to it. `len(self.page)` raises TypeError
when the fetch left `self.page` as `None`; the bare `except` catches and logs it, so the
newly created file stays empty. -/
def download (env : Env) (s : ScraperState) : ScraperState :=
  match alistGet s.fs "main.html" with
  | some fd => { s with page := some (pyStrip fd.data) }
  | none =>
      let s1 := { s with fs := alistSet s.fs "main.html" (FileData.binary "") }
      let s2 := get_page env s1
      match s2.page with
      | none => { s2 with errors := s2.errors + 1 }
      | some p => { s2 with fs := alistSet s2.fs "main.html" (FileData.binary p) }

/-- The value the dict loop in `_scrape_form_input_data` stores for one input: the
export-type input is overridden with `self.export_type`, every other input contributes
its `value` attribute. -/
def inputEntryValue (et : String) (it : InputElem) : Option String :=
  if it.name = some exportTypeKey then some et else it.value

/-- The form payload: a Python dict from input `name` attribute to stored value. -/
abbrev FormData := List (Option String × Option String)

/-- The dict-building loop of `WebScrapper._scrape_form_input_data` (lines 119-124):
`data.update({item.get("name"): ...})` for each input, in document order. -/
def build_form_data (et : String) (inputs : List InputElem) : FormData :=
  inputs.foldl (fun d it => alistSet d it.name (inputEntryValue et it)) []

/-- A Python exception escaping a method of this program. -/
inductive PyExn : Type
  | typeError
  | attrError
deriving DecidableEq

/-- `WebScrapper._scrape_form_input_data`: optionally download the cached copy, fetch
the page when `self.page` is falsy, then parse it. `BeautifulSoup(None, ...)` raises
TypeError; when the form is absent, `export_form.find_all` raises AttributeError. Neither
is caught here, so the exception escapes together with the state mutated so far. -/
def scrape_form_input_data (env : Env) (s : ScraperState) :
    ScraperState × Except PyExn FormData :=
  let s1 := if s.cached then download env s else s
  let s2 := if truthy s1.page then s1 else get_page env s1
  match s2.page with
  | none => (s2, Except.error PyExn.typeError)
  | some p =>
      match env.parse p with
      | none => (s2, Except.error PyExn.attrError)
      | some inputs => (s2, Except.ok (build_form_data s2.exportType inputs))

/-- An exception escaping `export_data_to_file` (or `__init__`). -/
inductive ExportExn : Type
  | unsupportedExportType
  | uncaught (e : PyExn)
deriving DecidableEq

/-- `WebScrapper._validate_file_extension`: raise `UnsupportedExportType` unless the
lowercased export type is one of the supported file types. -/
def validate_file_extension (et : String) : Except ExportExn Unit :=
  if pyLower et ∈ SUPPORTED_FILE_TYPES then Except.ok ()
  else Except.error ExportExn.unsupportedExportType

/-- `WebScrapper.__init__`: store the flags, leave `self.page = None`, and validate the
export type (raising `UnsupportedExportType` on failure). -/
def initScraper (cached : Bool) (export_type : String) (fs0 : FileSystem) :
    Except ExportExn ScraperState :=
  match validate_file_extension export_type with
  | Except.error e => Except.error e
  | Except.ok _ =>
      Except.ok { cached := cached, exportType := export_type, page := none, fs := fs0,
                  getCount := 0, postCount := 0, errors := 0 }

/-- `WebScrapper.export_data_to_file`: optionally override `self.export_type` (a falsy
argument is ignored), validate it, scrape the form data (outside any try block, so a
scrape exception propagates), then POST inside a try block. On status 200 the file mode
is chosen by exact comparison of `self.export_type` against "csv"/"xml" (text) and "xls"
(binary); if no branch matches, `filemode` is unbound and referencing it raises inside
the inner try, which catches and logs it. A non-200 status, a POST transport error, and
an IOError while opening the file are all caught and logged. -/
def export_data_to_file (env : Env) (s : ScraperState) (arg : Option String) :
    ScraperState × Except ExportExn Unit :=
  let s0 := match arg with
            | none => s
            | some et => if et.isEmpty then s else { s with exportType := et }
  match validate_file_extension s0.exportType with
  | Except.error e => (s0, Except.error e)
  | Except.ok _ =>
      let datafile := "data." ++ s0.exportType
      match scrape_form_input_data env s0 with
      | (s1, Except.error e) => (s1, Except.error (ExportExn.uncaught e))
      | (s1, Except.ok _data) =>
          let s2 := { s1 with postCount := s1.postCount + 1 }
          match env.postResult with
          | NetResult.exn => ({ s2 with errors := s2.errors + 1 }, Except.ok ())
          | NetResult.resp r =>
              if r.status = 200 then
                if s2.exportType = "csv" ∨ s2.exportType = "xml" then
                  if env.ioError then ({ s2 with errors := s2.errors + 1 }, Except.ok ())
                  else ({ s2 with fs := alistSet s2.fs datafile (FileData.text r.text) },
                        Except.ok ())
                else if s2.exportType = "xls" then
                  if env.ioError then ({ s2 with errors := s2.errors + 1 }, Except.ok ())
                  else ({ s2 with fs := alistSet s2.fs datafile (FileData.binary r.content) },
                        Except.ok ())
                else
                  ({ s2 with errors := s2.errors + 1 }, Except.ok ())
              else
                ({ s2 with errors := s2.errors + 1 }, Except.ok ())

/-- `parse_args`: argparse with `choices=SUPPORTED_FILE_TYPES, required=True`. A missing
flag or a value outside the choices makes argparse print usage and call `sys.exit(2)`. -/
def parse_args (arg : Option String) : Except Nat String :=
  match arg with
  | none => Except.error 2
  | some ft => if ft ∈ SUPPORTED_FILE_TYPES then Except.ok ft else Except.error 2

/-- Observable outcome of running the program: the exit code when the process exited via
`sys.exit`, and how many GET and POST network calls were made. -/
structure MainResult where
  exitCode : Option Nat
  getCount : Nat
  postCount : Nat
deriving DecidableEq

/-- The `__main__` block: parse the CLI arguments, build `WebScrapper(cached=False,
export_type=filetype)` and run one export. -/
def pymain (env : Env) (fs0 : FileSystem) (arg : Option String) : MainResult :=
  match parse_args arg with
  | Except.error c => { exitCode := some c, getCount := 0, postCount := 0 }
  | Except.ok ft =>
      let s0 : ScraperState :=
        { cached := false, exportType := ft, page := none, fs := fs0,
          getCount := 0, postCount := 0, errors := 0 }
      let s1 := (export_data_to_file env s0 none).1
      { exitCode := none, getCount := s1.getCount, postCount := s1.postCount }

/-! ### Association-list lemmas -/

theorem alistGet_alistSet {κ α : Type} [DecidableEq κ] (l : List (κ × α)) (k k' : κ) (v : α) :
    alistGet (alistSet l k v) k' = if k = k' then some v else alistGet l k' := by
  induction l with
  | nil => simp [alistSet, alistGet]
  | cons e rest ih =>
      by_cases h : e.1 = k
      · subst h
        by_cases h2 : e.1 = k' <;> simp [alistSet, alistGet, h2]
      · by_cases h2 : e.1 = k'
        · have hkk : ¬ k = k' := fun hk => h (h2.trans hk.symm)
          have hkk2 : ¬ k' = k := fun hk => hkk hk.symm
          simp [alistSet, alistGet, h, h2, hkk, hkk2]
        · simp [alistSet, alistGet, h, h2, ih]

/-- The entry left under key `k` by a last-write-wins pass over `inputs`, where each
input named `k` contributes `g it`. -/
def lastBy (g : InputElem → Option String) (inputs : List InputElem) (k : Option String) :
    Option (Option String) :=
  inputs.foldl (fun acc it => if it.name = k then some (g it) else acc) none

/-- The `value` attribute of the last input named `k`, if any. -/
def lastValueAttr (inputs : List InputElem) (k : Option String) : Option (Option String) :=
  lastBy (fun it => it.value) inputs k

theorem lastBy_foldl_acc (g : InputElem → Option String) (k : Option String)
    (inputs : List InputElem) (a : Option (Option String)) :
    inputs.foldl (fun acc it => if it.name = k then some (g it) else acc) a
      = (lastBy g inputs k).elim a some := by
  induction inputs generalizing a with
  | nil => simp [lastBy]
  | cons it rest ih =>
      have hcons : lastBy g (it :: rest) k
          = (lastBy g rest k).elim (if it.name = k then some (g it) else none) some := by
        simp only [lastBy, List.foldl_cons]
        exact ih _
      rw [List.foldl_cons, ih _, hcons]
      cases hrest : lastBy g rest k with
      | none => by_cases h : it.name = k <;> simp [h]
      | some v => simp

theorem lastBy_cons (g : InputElem → Option String) (k : Option String) (it : InputElem)
    (rest : List InputElem) :
    lastBy g (it :: rest) k
      = (lastBy g rest k).elim (if it.name = k then some (g it) else none) some := by
  simp only [lastBy, List.foldl_cons]
  exact lastBy_foldl_acc g k rest _

theorem alistGet_build_form_data_aux (et : String) (k : Option String) :
    ∀ (inputs : List InputElem) (d : FormData),
      alistGet (inputs.foldl (fun d it => alistSet d it.name (inputEntryValue et it)) d) k
        = (lastBy (inputEntryValue et) inputs k).elim (alistGet d k) some := by
  intro inputs
  induction inputs with
  | nil => intro d; simp [lastBy]
  | cons it rest ih =>
      intro d
      simp only [List.foldl_cons]
      rw [ih, lastBy_cons, alistGet_alistSet]
      cases hrest : lastBy (inputEntryValue et) rest k with
      | none =>
          by_cases h : it.name = k
          · simp [h]
          · simp [h]
      | some v => simp

theorem alistGet_build_form_data (et : String) (inputs : List InputElem) (k : Option String) :
    alistGet (build_form_data et inputs) k = lastBy (inputEntryValue et) inputs k := by
  rw [build_form_data, alistGet_build_form_data_aux]
  cases h : lastBy (inputEntryValue et) inputs k <;> simp [alistGet]

theorem lastBy_isSome_of_mem (g : InputElem → Option String) (inputs : List InputElem)
    (it : InputElem) (hmem : it ∈ inputs) : (lastBy g inputs it.name).isSome := by
  induction inputs with
  | nil => cases hmem
  | cons hd rest ih =>
      rw [lastBy_cons]
      rcases List.mem_cons.mp hmem with h | h
      · cases hrest : lastBy g rest it.name with
        | none => simp [h]
        | some v => simp
      · cases hrest : lastBy g rest it.name with
        | none =>
            have := ih h
            rw [hrest] at this
            cases this
        | some v => simp

theorem lastBy_export_dichotomy (et : String) (inputs : List InputElem) :
    lastBy (inputEntryValue et) inputs (some exportTypeKey) = none ∨
      lastBy (inputEntryValue et) inputs (some exportTypeKey) = some (some et) := by
  induction inputs with
  | nil => left; rfl
  | cons it rest ih =>
      rw [lastBy_cons]
      rcases ih with h | h
      · rw [h]
        by_cases hn : it.name = some exportTypeKey
        · right; simp [hn, inputEntryValue]
        · left; simp [hn]
      · rw [h]; right; simp

theorem lastBy_congr_on (g₁ g₂ : InputElem → Option String) (k : Option String)
    (hg : ∀ it : InputElem, it.name = k → g₁ it = g₂ it) (inputs : List InputElem) :
    lastBy g₁ inputs k = lastBy g₂ inputs k := by
  induction inputs with
  | nil => rfl
  | cons it rest ih =>
      rw [lastBy_cons, lastBy_cons, ih]
      by_cases hn : it.name = k
      · simp [hn, hg it hn]
      · simp [hn]

/-! ### Shared helper lemmas about the scraper -/

theorem pyLower_of_supported (et : String) (h : et ∈ SUPPORTED_FILE_TYPES) :
    pyLower et = et := by
  simp only [SUPPORTED_FILE_TYPES, List.mem_cons, List.mem_singleton,
    List.not_mem_nil, or_false] at h
  rcases h with rfl | rfl | rfl <;> decide

theorem validate_ok_of_supported (et : String) (h : et ∈ SUPPORTED_FILE_TYPES) :
    validate_file_extension et = Except.ok () := by
  rw [validate_file_extension, pyLower_of_supported et h, if_pos h]

/-- When the page is already in memory, nonempty, and caching is off, the scrape step
touches nothing and returns the dict built from the parsed inputs. -/
theorem scrape_direct (env : Env) (s : ScraperState) (p : String) (inputs : List InputElem)
    (hc : s.cached = false) (hp : s.page = some p) (hne : p.isEmpty = false)
    (hparse : env.parse p = some inputs) :
    scrape_form_input_data env s = (s, Except.ok (build_form_data s.exportType inputs)) := by
  simp [scrape_form_input_data, hc, hp, truthy, hne, hparse]

/-- When `main.html` exists, `download` only loads its stripped contents into the page. -/
theorem download_hit (env : Env) (s : ScraperState) (fd : FileData)
    (hfs : alistGet s.fs "main.html" = some fd) :
    download env s = { s with page := some (pyStrip fd.data) } := by
  simp [download, hfs]

/-! ### The claims -/

/-- C1: for every export format and every page containing the export form,
`_scrape_form_input_data` returns a mapping in which every input's name attribute appears
as a key, the export-type key is mapped to the requested format, every other key is
mapped to that input's value attribute, and when two inputs share a name the value of the
last such input wins. -/
theorem build_payload_correct (env : Env) (s : ScraperState) (p : String)
    (inputs : List InputElem)
    (hc : s.cached = false) (hp : s.page = some p) (hne : p.isEmpty = false)
    (hparse : env.parse p = some inputs) :
    (scrape_form_input_data env s).2 = Except.ok (build_form_data s.exportType inputs) ∧
    (∀ it ∈ inputs, (alistGet (build_form_data s.exportType inputs) it.name).isSome) ∧
    ((∃ it ∈ inputs, it.name = some exportTypeKey) →
      alistGet (build_form_data s.exportType inputs) (some exportTypeKey)
        = some (some s.exportType)) ∧
    (∀ k, k ≠ some exportTypeKey →
      alistGet (build_form_data s.exportType inputs) k = lastValueAttr inputs k) := by
  refine ⟨by rw [scrape_direct env s p inputs hc hp hne hparse], ?_, ?_, ?_⟩
  · intro it hmem
    rw [alistGet_build_form_data]
    exact lastBy_isSome_of_mem _ _ _ hmem
  · rintro ⟨it, hmem, hname⟩
    rw [alistGet_build_form_data]
    rcases lastBy_export_dichotomy s.exportType inputs with h | h
    · have hs := lastBy_isSome_of_mem (inputEntryValue s.exportType) inputs it hmem
      rw [hname, h] at hs
      cases hs
    · exact h
  · intro k hk
    rw [alistGet_build_form_data, lastValueAttr]
    exact lastBy_congr_on _ _ k
      (fun it hn => by
        rw [inputEntryValue, if_neg (fun hcontra => hk (hn.symm.trans hcontra))]) inputs

/-- Witness for C1 at a concrete page with a duplicate name, an export-type input and a
nameless input. -/
theorem build_payload_correct_witness :
    (let inputs : List InputElem :=
      [⟨some "a", some "1"⟩, ⟨some exportTypeKey, some "csv"⟩,
       ⟨some "a", some "2"⟩, ⟨none, some "z"⟩]
     let env : Env :=
      { getResult := NetResult.exn, postResult := NetResult.exn,
        parse := fun _ => some inputs, ioError := false }
     let s : ScraperState :=
      { cached := false, exportType := "xls", page := some "<html>", fs := [],
        getCount := 0, postCount := 0, errors := 0 }
     (scrape_form_input_data env s).2 = Except.ok (build_form_data s.exportType inputs) ∧
     (∀ it ∈ inputs, (alistGet (build_form_data s.exportType inputs) it.name).isSome) ∧
     ((∃ it ∈ inputs, it.name = some exportTypeKey) →
       alistGet (build_form_data s.exportType inputs) (some exportTypeKey)
         = some (some s.exportType)) ∧
     (∀ k, k ≠ some exportTypeKey →
       alistGet (build_form_data s.exportType inputs) k = lastValueAttr inputs k)) :=
  build_payload_correct _ _ "<html>" _ rfl rfl rfl rfl

/-- C8: when the GET returns a non-200 status or fails with a transport error,
`get_page` logs the failure, raises nothing (it is a total function of the state), and
leaves `self.page` exactly as it was. -/
theorem get_page_failure_preserves_page (env : Env) (s : ScraperState)
    (h : env.getResult = NetResult.exn ∨
      ∃ r, env.getResult = NetResult.resp r ∧ r.status ≠ 200) :
    (get_page env s).page = s.page ∧ (get_page env s).errors = s.errors + 1 := by
  rcases h with h | ⟨r, hr, hs⟩
  · simp [get_page, h]
  · simp [get_page, hr, hs]

/-- Witness for C8: a transport error on a fresh scraper. -/
theorem get_page_failure_preserves_page_witness :
    (let env : Env :=
      { getResult := NetResult.exn, postResult := NetResult.exn,
        parse := fun _ => none, ioError := false }
     let s : ScraperState :=
      { cached := false, exportType := "csv", page := none, fs := [],
        getCount := 0, postCount := 0, errors := 0 }
     (get_page env s).page = s.page ∧ (get_page env s).errors = s.errors + 1) :=
  get_page_failure_preserves_page _ _ (Or.inl rfl)

/-- C5: with caching enabled and no `main.html` on disk, `download` issues exactly one
GET, and whenever that GET succeeds it writes the fetched body to `main.html` (in binary
mode) and stores it in `self.page` before returning. -/
theorem download_miss_fetches_once (env : Env) (s : ScraperState)
    (hcache : s.cached = true) (hfs : alistGet s.fs "main.html" = none) :
    (download env s).getCount = s.getCount + 1 ∧
    (∀ r, env.getResult = NetResult.resp r → r.status = 200 →
      alistGet (download env s).fs "main.html" = some (FileData.binary r.content) ∧
      (download env s).page = some r.content) := by
  constructor
  · cases henv : env.getResult with
    | resp r =>
        by_cases h200 : r.status = 200
        · simp [download, hfs, get_page, henv, h200]
        · cases hp : s.page <;> simp [download, hfs, get_page, henv, h200, hp]
    | exn => cases hp : s.page <;> simp [download, hfs, get_page, henv, hp]
  · intro r hr h200
    simp [download, hfs, get_page, hr, h200, alistGet_alistSet]

/-- Witness for C5: empty filesystem, successful GET. -/
theorem download_miss_fetches_once_witness :
    (let env : Env :=
      { getResult := NetResult.resp ⟨200, "PAGE", "PAGE"⟩, postResult := NetResult.exn,
        parse := fun _ => none, ioError := false }
     let s : ScraperState :=
      { cached := true, exportType := "csv", page := none, fs := [],
        getCount := 0, postCount := 0, errors := 0 }
     (download env s).getCount = s.getCount + 1 ∧
     (∀ r, env.getResult = NetResult.resp r → r.status = 200 →
       alistGet (download env s).fs "main.html" = some (FileData.binary r.content) ∧
       (download env s).page = some r.content)) :=
  download_miss_fetches_once _ _ rfl rfl

/-- C9: when `main.html` does not exist, `self.page` is unset and the GET fails,
`download` returns without raising but leaves `main.html` on disk as an empty file, and
every later `download` run finds the file present, performs no GET, and loads this empty
page. -/
theorem failed_fetch_poisons_cache (env : Env) (s : ScraperState)
    (hfs : alistGet s.fs "main.html" = none) (hp : s.page = none)
    (h : env.getResult = NetResult.exn ∨
      ∃ r, env.getResult = NetResult.resp r ∧ r.status ≠ 200) :
    alistGet (download env s).fs "main.html" = some (FileData.binary "") ∧
    (∀ env2 : Env, (download env2 (download env s)).getCount = (download env s).getCount ∧
      (download env2 (download env s)).page = some "") := by
  have hdl : alistGet (download env s).fs "main.html" = some (FileData.binary "") := by
    rcases h with h | ⟨r, hr, hs⟩
    · simp [download, hfs, get_page, h, hp, alistGet_alistSet]
    · simp [download, hfs, get_page, hr, hs, hp, alistGet_alistSet]
  refine ⟨hdl, fun env2 => ?_⟩
  have hstrip : pyStrip (FileData.data (FileData.binary "")) = "" := by decide
  rw [download_hit env2 _ _ hdl]
  exact ⟨rfl, by simp [hstrip]⟩

/-- Witness for C9: fresh state, GET returns status 500. -/
theorem failed_fetch_poisons_cache_witness :
    (let env : Env :=
      { getResult := NetResult.resp ⟨500, "", ""⟩, postResult := NetResult.exn,
        parse := fun _ => none, ioError := false }
     let s : ScraperState :=
      { cached := true, exportType := "csv", page := none, fs := [],
        getCount := 0, postCount := 0, errors := 0 }
     alistGet (download env s).fs "main.html" = some (FileData.binary "") ∧
     (∀ env2 : Env, (download env2 (download env s)).getCount = (download env s).getCount ∧
       (download env2 (download env s)).page = some "")) :=
  failed_fetch_poisons_cache _ _ rfl rfl (Or.inr ⟨_, rfl, by decide⟩)

/-- C3 counterexample: caching is enabled and `main.html` exists (holding only
whitespace), yet the scrape step performs a network GET and ends with the freshly fetched
page, not the trimmed cache contents. -/
theorem cache_hit_still_fetches_cx :
    (scrape_form_input_data
      { getResult := NetResult.resp ⟨200, "FRESH", "FRESH"⟩,
        postResult := NetResult.exn, parse := fun _ => some [], ioError := false }
      { cached := true, exportType := "csv", page := none,
        fs := [("main.html", FileData.binary "  ")],
        getCount := 0, postCount := 0, errors := 0 }).1.getCount = 1 ∧
    (scrape_form_input_data
      { getResult := NetResult.resp ⟨200, "FRESH", "FRESH"⟩,
        postResult := NetResult.exn, parse := fun _ => some [], ioError := false }
      { cached := true, exportType := "csv", page := none,
        fs := [("main.html", FileData.binary "  ")],
        getCount := 0, postCount := 0, errors := 0 }).1.page = some "FRESH" := by
  constructor <;> rfl

/-- C3 (amended): with caching enabled, `main.html` present, and its stripped contents
nonempty, the scrape step performs no network GET and uses exactly the cache file's
trimmed contents as the Page. -/
theorem cache_hit_uses_trimmed_cache (env : Env) (s : ScraperState) (fd : FileData)
    (hcache : s.cached = true) (hfs : alistGet s.fs "main.html" = some fd)
    (hne : (pyStrip fd.data).isEmpty = false) :
    (scrape_form_input_data env s).1.getCount = s.getCount ∧
    (scrape_form_input_data env s).1.page = some (pyStrip fd.data) := by
  have hdl : download env s = { s with page := some (pyStrip fd.data) } :=
    download_hit env s fd hfs
  cases hparse : env.parse (pyStrip fd.data) with
  | none =>
      constructor <;> simp [scrape_form_input_data, hcache, hdl, truthy, hne, hparse]
  | some inputs =>
      constructor <;> simp [scrape_form_input_data, hcache, hdl, truthy, hne, hparse]

/-- Witness for the amended C3: a cache file with surrounding whitespace. -/
theorem cache_hit_uses_trimmed_cache_witness :
    (let env : Env :=
      { getResult := NetResult.resp ⟨200, "FRESH", "FRESH"⟩,
        postResult := NetResult.exn, parse := fun _ => some [], ioError := false }
     let s : ScraperState :=
      { cached := true, exportType := "csv", page := none,
        fs := [("main.html", FileData.binary " <html> ")],
        getCount := 3, postCount := 0, errors := 0 }
     (scrape_form_input_data env s).1.getCount = s.getCount ∧
     (scrape_form_input_data env s).1.page
       = some (pyStrip (FileData.data (FileData.binary " <html> ")))) :=
  cache_hit_uses_trimmed_cache _ _ (FileData.binary " <html> ") rfl rfl (by decide)

/-- C2: when the POST comes back with a non-200 status, `export_data_to_file` writes no
output file, raises nothing, and logs one error. -/
theorem post_non200_no_write (env : Env) (s : ScraperState) (p : String)
    (inputs : List InputElem) (r : HttpResponse)
    (hsup : s.exportType ∈ SUPPORTED_FILE_TYPES)
    (hc : s.cached = false) (hp : s.page = some p) (hne : p.isEmpty = false)
    (hparse : env.parse p = some inputs)
    (hpost : env.postResult = NetResult.resp r) (hstatus : r.status ≠ 200) :
    (export_data_to_file env s none).2 = Except.ok () ∧
    (export_data_to_file env s none).1.fs = s.fs ∧
    (export_data_to_file env s none).1.errors = s.errors + 1 := by
  have hval := validate_ok_of_supported s.exportType hsup
  have hscrape := scrape_direct env s p inputs hc hp hne hparse
  refine ⟨?_, ?_, ?_⟩ <;>
    simp [export_data_to_file, hval, hscrape, hpost, hstatus]

/-- Witness for C2: POST returns status 500. -/
theorem post_non200_no_write_witness :
    (let env : Env :=
      { getResult := NetResult.exn, postResult := NetResult.resp ⟨500, "B", "T"⟩,
        parse := fun _ => some [], ioError := false }
     let s : ScraperState :=
      { cached := false, exportType := "xml", page := some "<html>", fs := [],
        getCount := 0, postCount := 0, errors := 0 }
     (export_data_to_file env s none).2 = Except.ok () ∧
     (export_data_to_file env s none).1.fs = s.fs ∧
     (export_data_to_file env s none).1.errors = s.errors + 1) :=
  post_non200_no_write _ _ "<html>" [] ⟨500, "B", "T"⟩ (by decide) rfl rfl rfl rfl rfl
    (by decide)

/-- C4 counterexample: when the export form is absent from the page, the AttributeError
raised by `export_form.find_all` is not caught anywhere in `export_data_to_file` (the
scrape happens before the try block), so the exception propagates to the caller instead
of being logged and swallowed. -/
theorem parse_failure_propagates_cx :
    (export_data_to_file
      { getResult := NetResult.exn, postResult := NetResult.exn,
        parse := fun _ => none, ioError := false }
      { cached := false, exportType := "csv", page := some "<html></html>",
        fs := [], getCount := 0, postCount := 0, errors := 0 } none).2
      = Except.error (ExportExn.uncaught PyExn.attrError) := by rfl

/-- C4 (amended): every failure in the POST-and-write phase — a POST transport error, a
non-200 POST status, or an IOError while opening the output file — is logged and
swallowed: export writes no file, raises nothing, and logs one error. A structural parse
failure, in contrast, propagates an exception to the caller. -/
theorem post_phase_failures_swallowed (env : Env) (s : ScraperState) (p : String)
    (inputs : List InputElem)
    (hsup : s.exportType ∈ SUPPORTED_FILE_TYPES)
    (hc : s.cached = false) (hp : s.page = some p) (hne : p.isEmpty = false)
    (hparse : env.parse p = some inputs)
    (hfail : env.postResult = NetResult.exn ∨
      (∃ r, env.postResult = NetResult.resp r ∧ r.status ≠ 200) ∨
      (∃ r, env.postResult = NetResult.resp r ∧ r.status = 200 ∧ env.ioError = true)) :
    (export_data_to_file env s none).2 = Except.ok () ∧
    (export_data_to_file env s none).1.fs = s.fs ∧
    (export_data_to_file env s none).1.errors = s.errors + 1 := by
  have hval := validate_ok_of_supported s.exportType hsup
  have hscrape := scrape_direct env s p inputs hc hp hne hparse
  rcases hfail with hpost | ⟨r, hpost, hstatus⟩ | ⟨r, hpost, hstatus, hio⟩
  · refine ⟨?_, ?_, ?_⟩ <;> simp [export_data_to_file, hval, hscrape, hpost]
  · refine ⟨?_, ?_, ?_⟩ <;> simp [export_data_to_file, hval, hscrape, hpost, hstatus]
  · have hmem := hsup
    simp only [SUPPORTED_FILE_TYPES, List.mem_cons, List.mem_singleton,
      List.not_mem_nil, or_false] at hmem
    rcases hmem with het | het | het <;>
      rw [het] at hval <;>
        refine ⟨?_, ?_, ?_⟩ <;>
          simp [export_data_to_file, hval, hscrape, hpost, hstatus, hio, het]

/-- Witness for the amended C4: POST transport error. -/
theorem post_phase_failures_swallowed_witness :
    (let env : Env :=
      { getResult := NetResult.exn, postResult := NetResult.exn,
        parse := fun _ => some [], ioError := false }
     let s : ScraperState :=
      { cached := false, exportType := "csv", page := some "<html>", fs := [],
        getCount := 0, postCount := 0, errors := 0 }
     (export_data_to_file env s none).2 = Except.ok () ∧
     (export_data_to_file env s none).1.fs = s.fs ∧
     (export_data_to_file env s none).1.errors = s.errors + 1) :=
  post_phase_failures_swallowed _ _ "<html>" [] (by decide) rfl rfl rfl rfl (Or.inl rfl)

/-- C6: on a 200 POST response, `export_data_to_file` writes `data.csv`/`data.xml` in
text mode with the decoded response text, and `data.xls` in binary mode with the raw
response bytes, and returns without raising. -/
theorem export_writes_by_format (env : Env) (s : ScraperState) (p : String)
    (inputs : List InputElem) (r : HttpResponse)
    (hsup : s.exportType ∈ SUPPORTED_FILE_TYPES)
    (hc : s.cached = false) (hp : s.page = some p) (hne : p.isEmpty = false)
    (hparse : env.parse p = some inputs)
    (hpost : env.postResult = NetResult.resp r) (hstatus : r.status = 200)
    (hio : env.ioError = false) :
    ((s.exportType = "csv" ∨ s.exportType = "xml") →
      alistGet (export_data_to_file env s none).1.fs ("data." ++ s.exportType)
        = some (FileData.text r.text)) ∧
    (s.exportType = "xls" →
      alistGet (export_data_to_file env s none).1.fs ("data." ++ s.exportType)
        = some (FileData.binary r.content)) ∧
    (export_data_to_file env s none).2 = Except.ok () := by
  have hval := validate_ok_of_supported s.exportType hsup
  have hscrape := scrape_direct env s p inputs hc hp hne hparse
  refine ⟨fun hcx => ?_, fun hx => ?_, ?_⟩
  · simp [export_data_to_file, hval, hscrape, hpost, hstatus, hio, hcx, alistGet_alistSet]
  · have hne2 : ¬(s.exportType = "csv" ∨ s.exportType = "xml") := by
      rw [hx]; decide
    rw [hx] at hval
    simp [export_data_to_file, hval, hscrape, hpost, hstatus, hio, hx, hne2,
      alistGet_alistSet]
  · have hmem := hsup
    simp only [SUPPORTED_FILE_TYPES, List.mem_cons, List.mem_singleton,
      List.not_mem_nil, or_false] at hmem
    rcases hmem with het | het | het <;>
      rw [het] at hval <;>
        simp [export_data_to_file, hval, hscrape, hpost, hstatus, hio, het]

/-- Witness for C6: one xls export and one csv export against a 200 response. -/
theorem export_writes_by_format_witness :
    (let env : Env :=
      { getResult := NetResult.exn, postResult := NetResult.resp ⟨200, "BYTES", "TEXT"⟩,
        parse := fun _ => some [], ioError := false }
     let s : ScraperState :=
      { cached := false, exportType := "xls", page := some "<html>", fs := [],
        getCount := 0, postCount := 0, errors := 0 }
     ((s.exportType = "csv" ∨ s.exportType = "xml") →
       alistGet (export_data_to_file env s none).1.fs ("data." ++ s.exportType)
         = some (FileData.text "TEXT")) ∧
     (s.exportType = "xls" →
       alistGet (export_data_to_file env s none).1.fs ("data." ++ s.exportType)
         = some (FileData.binary "BYTES")) ∧
     (export_data_to_file env s none).2 = Except.ok ()) :=
  export_writes_by_format _ _ "<html>" [] ⟨200, "BYTES", "TEXT"⟩ (by decide) rfl rfl rfl
    rfl rfl rfl rfl

/-- C7: a missing `--filetype` flag or a value outside {csv, xml, xls} makes the program
exit with status 2 (argparse usage error) before any GET or POST is attempted. -/
theorem bad_filetype_exits_before_network (env : Env) (fs0 : FileSystem)
    (arg : Option String)
    (h : ∀ ft, arg = some ft → ft ∉ SUPPORTED_FILE_TYPES) :
    ∃ c, (pymain env fs0 arg).exitCode = some c ∧ c ≠ 0 ∧
      (pymain env fs0 arg).getCount = 0 ∧ (pymain env fs0 arg).postCount = 0 := by
  cases arg with
  | none => exact ⟨2, rfl, by decide, rfl, rfl⟩
  | some ft =>
      have hni : ft ∉ SUPPORTED_FILE_TYPES := h ft rfl
      refine ⟨2, ?_, by decide, ?_, ?_⟩ <;> simp [pymain, parse_args, hni]

/-- Witness for C7: the unsupported format pdf. -/
theorem bad_filetype_exits_before_network_witness :
    (let env : Env :=
      { getResult := NetResult.exn, postResult := NetResult.exn,
        parse := fun _ => none, ioError := false }
     ∃ c, (pymain env [] (some "pdf")).exitCode = some c ∧ c ≠ 0 ∧
       (pymain env [] (some "pdf")).getCount = 0 ∧
       (pymain env [] (some "pdf")).postCount = 0) :=
  bad_filetype_exits_before_network _ [] (some "pdf")
    (fun ft hft => by injection hft with h2; rw [← h2]; decide)

/-- C10: an export type like CSV whose lowercasing is supported but which is not exactly
csv/xml/xls passes `_validate_file_extension`, yet even on a 200 POST response
`export_data_to_file` writes no file: the case-sensitive filemode selection matches no
branch, referencing the unbound `filemode` raises inside the inner try, and the fault is
caught and only logged. -/
theorem mixed_case_type_accepted_but_never_written (env : Env) (s : ScraperState)
    (p : String) (inputs : List InputElem) (r : HttpResponse)
    (hlow : pyLower s.exportType ∈ SUPPORTED_FILE_TYPES)
    (hnot : s.exportType ∉ SUPPORTED_FILE_TYPES)
    (hc : s.cached = false) (hp : s.page = some p) (hne : p.isEmpty = false)
    (hparse : env.parse p = some inputs)
    (hpost : env.postResult = NetResult.resp r) (hstatus : r.status = 200) :
    validate_file_extension s.exportType = Except.ok () ∧
    (export_data_to_file env s none).2 = Except.ok () ∧
    (export_data_to_file env s none).1.fs = s.fs ∧
    (export_data_to_file env s none).1.errors = s.errors + 1 := by
  have hval : validate_file_extension s.exportType = Except.ok () := by
    rw [validate_file_extension, if_pos hlow]
  have hscrape := scrape_direct env s p inputs hc hp hne hparse
  have h1 : ¬(s.exportType = "csv" ∨ s.exportType = "xml") := by
    rintro (h | h) <;> exact hnot (by rw [h]; decide)
  have h2 : s.exportType ≠ "xls" := fun h => hnot (by rw [h]; decide)
  refine ⟨hval, ?_, ?_, ?_⟩ <;>
    simp [export_data_to_file, hval, hscrape, hpost, hstatus, h1, h2]

/-- Witness for C10: export type CSV against a 200 response. -/
theorem mixed_case_type_accepted_but_never_written_witness :
    (let env : Env :=
      { getResult := NetResult.exn, postResult := NetResult.resp ⟨200, "B", "T"⟩,
        parse := fun _ => some [], ioError := false }
     let s : ScraperState :=
      { cached := false, exportType := "CSV", page := some "<html>", fs := [],
        getCount := 0, postCount := 0, errors := 0 }
     validate_file_extension s.exportType = Except.ok () ∧
     (export_data_to_file env s none).2 = Except.ok () ∧
     (export_data_to_file env s none).1.fs = s.fs ∧
     (export_data_to_file env s none).1.errors = s.errors + 1) :=
  mixed_case_type_accepted_but_never_written _ _ "<html>" [] ⟨200, "B", "T"⟩ (by decide)
    (by decide) rfl rfl rfl rfl rfl rfl

end SimpleScraper
